import Mathlib

/-!
Verification of the expression engine of `src/cli-calculator.py` (functions
`tokenize`, `apply_operator`, `evaluate`).

Modelling decisions:
* Python floats are modelled as real numbers (`ℝ`); the arithmetic exercised
  by the claims (small integers, `sqrt 16`, ...) is exact in IEEE doubles, so
  the idealisation is faithful on every input the claims mention.
* Stacks are Lean lists with the top at the head (Python pushes/pops at the
  tail; `operators[-1]` is the head here).
* Python exceptions become an `Except CalcError` result.  Each `ValueError`
  the source raises has its own constructor; `pythonZeroDivision` stands for
  the built-in `ZeroDivisionError` that `left % right` raises un-guarded when
  `right == 0` (the source guards `/` but not `%`).
* `re.findall` with the source's pattern is modelled exactly: at each
  position the alternatives are tried in the pattern's order
  (`\d*\.\d+`, `\d+`, the single-symbol class, then the keywords in order);
  a position where none matches is skipped, one character at a time.
-/

/-- The characters of the source's single-symbol class in regex order:
the class of `[-+*/()^%]` in the pattern on line 19. -/
def opChars : List Char := ['-', '+', '*', '/', '(', ')', '^', '%']

/-- The keyword alternatives of the pattern on line 19, in the pattern's
order: `sin|cos|tan|sqrt|log|ln|abs|pi|e`. -/
def keywords : List String := ["sin", "cos", "tan", "sqrt", "log", "ln", "abs", "pi", "e"]

/-- The unary function names, the tuple on line 34 of the source. -/
def functionNames : List String := ["sin", "cos", "tan", "sqrt", "log", "ln", "abs"]

/-- The numeral alternatives `\d*\.\d+|\d+` tried at the start of `cs`
(regex alternation is ordered, and each `\d*`/`\d+` is greedy): first the
dotted form (all leading digits, a dot, at least one digit), else a
non-empty run of digits, else no match. -/
def matchNumber (cs : List Char) : Option String :=
  let ds := cs.takeWhile (fun c => c.isDigit)
  let rest := cs.drop ds.length
  match rest with
  | '.' :: r2 =>
    let fs := r2.takeWhile (fun c => c.isDigit)
    if fs ≠ [] then some (String.mk (ds ++ '.' :: fs))
    else if ds ≠ [] then some (String.mk ds) else none
  | _ => if ds ≠ [] then some (String.mk ds) else none

/-- The first keyword alternative that matches at the start of `cs`
(the pattern's keywords are tried left to right). -/
def matchKeyword (cs : List Char) : Option String :=
  keywords.find? (fun k => k.data.isPrefixOf cs)

/-- One attempted match of the source's token pattern at the start of `cs`:
numeral alternatives first, then the single-symbol class, then the
keywords. -/
def matchToken (cs : List Char) : Option String :=
  match matchNumber cs with
  | some t => some t
  | none =>
    match cs with
    | c :: _ => if c ∈ opChars then some (String.mk [c]) else matchKeyword cs
    | [] => none

/-- The scanning loop of `re.findall`, written with explicit fuel so that it
is structurally recursive (every match consumes at least one character, so
`cs.length` steps always suffice; `findTokensGo_fuel` below proves the fuel
never truncates the scan). -/
def findTokensGo : ℕ → List Char → List String
  | 0, _ => []
  | _ + 1, [] => []
  | fuel + 1, c :: rest =>
    match matchToken (c :: rest) with
    | some t => t :: findTokensGo fuel (rest.drop (t.length - 1))
    | none => findTokensGo fuel rest

/-- `re.findall(pattern, ·)` over the characters: at each position emit the
token the pattern matches and resume after it, and skip a single character
where nothing matches (findall silently drops unmatched text). -/
def findTokens (cs : List Char) : List String := findTokensGo cs.length cs

/-- `tokenize` (source lines 14-21): remove every space character
(`expression.replace(" ", "")`), then collect the pattern's matches. -/
def tokenize (expression : String) : List String :=
  findTokens (expression.data.filter (fun c => c ≠ ' '))

/-- The anchored numeral test of line 105,
`re.match(r'^(\d*\.\d+|\d+)$', token)`: the whole token is either a
non-empty digit run, or digits, one dot, then a non-empty digit run. -/
def isNumberToken (t : String) : Bool :=
  let cs := t.data
  let ds := cs.takeWhile (fun c => c.isDigit)
  let rest := cs.drop ds.length
  match rest with
  | [] => !ds.isEmpty
  | '.' :: r2 => (!r2.isEmpty) && r2.all (fun c => c.isDigit)
  | _ => false

/-- Python's `token in '+-*/^%'` on line 126 is a substring test on the
six-symbol string. -/
def isOpSubstring (t : String) : Bool :=
  (['+', '-', '*', '/', '^', '%'] : List Char).tails.any
    (fun suffix => t.data.isPrefixOf suffix)

/-- Decimal value of a digit string. -/
def digitsVal (cs : List Char) : ℕ := cs.foldl (fun n c => 10 * n + (c.toNat - 48)) 0

/-- The value of `float(token)` for the numeral tokens the pattern yields
(at most one dot): digits before the dot as the integer part, digits after
it scaled down by a power of ten. -/
noncomputable def strToReal (t : String) : ℝ :=
  let cs := t.data
  let a := cs.takeWhile (fun c => c ≠ '.')
  match cs.drop a.length with
  | '.' :: b => digitsVal a + (digitsVal b : ℝ) / 10 ^ b.length
  | _ => digitsVal a

/-- The precedence dict of line 96. -/
def precOf : String → Option ℕ
  | "+" => some 1
  | "-" => some 1
  | "*" => some 2
  | "/" => some 2
  | "^" => some 3
  | "%" => some 2
  | _ => none

/-- Python's `left % right` for `right ≠ 0`: floored modulo,
`left - right * floor(left / right)`. -/
noncomputable def pymod (l r : ℝ) : ℝ := l - r * (⌊l / r⌋ : ℝ)

/-- Every failure the engine can produce.  The `ValueError`s of the source
each get a constructor; `pythonZeroDivision` is the built-in
`ZeroDivisionError` escaping from the un-guarded `left % right`. -/
inductive CalcError where
  | notEnoughOperandsFun (op : String)
  | negativeSqrt
  | nonPositiveLog
  | nonPositiveLn
  | notEnoughOperandsOp (op : String)
  | divisionByZero
  | pythonZeroDivision
  | mismatchedParens
  | unknownToken (t : String)
  | invalidExpression
  deriving DecidableEq, Repr

/-- The body of `apply_operator` (source lines 29-88) after the initial pop:
act on the popped entry `op` against the value stack.  The final `.ok vs`
mirrors the if-chain's fall-through: an entry that is none of the known
operators still pops two values and appends nothing. -/
noncomputable def applyTop (op : String) (values : List ℝ) : Except CalcError (List ℝ) :=
  if op = "(" then .ok values
  else if op ∈ functionNames then
    match values with
    | [] => .error (.notEnoughOperandsFun op)
    | value :: vs =>
      if op = "sin" then .ok (Real.sin value :: vs)
      else if op = "cos" then .ok (Real.cos value :: vs)
      else if op = "tan" then .ok (Real.tan value :: vs)
      else if op = "sqrt" then
        if value < 0 then .error .negativeSqrt else .ok (Real.sqrt value :: vs)
      else if op = "log" then
        if value ≤ 0 then .error .nonPositiveLog else .ok (Real.logb 10 value :: vs)
      else if op = "ln" then
        if value ≤ 0 then .error .nonPositiveLn else .ok (Real.log value :: vs)
      else
        .ok (|value| :: vs)
  else if op = "pi" then .ok (Real.pi :: values)
  else if op = "e" then .ok (Real.exp 1 :: values)
  else
    match values with
    | right :: left :: vs =>
      if op = "+" then .ok ((left + right) :: vs)
      else if op = "-" then .ok ((left - right) :: vs)
      else if op = "*" then .ok ((left * right) :: vs)
      else if op = "/" then
        if right = 0 then .error .divisionByZero else .ok ((left / right) :: vs)
      else if op = "^" then .ok ((left ^ right) :: vs)
      else if op = "%" then
        if right = 0 then .error .pythonZeroDivision else .ok (pymod left right :: vs)
      else .ok vs
    | _ => .error (.notEnoughOperandsOp op)

/-- `apply_operator(operators, values)` whole (source lines 24-88): with an
empty stack it is a no-op, else it pops the top entry and acts on it. -/
noncomputable def applyOperator (operators : List String) (values : List ℝ) :
    Except CalcError (List String × List ℝ) :=
  match operators with
  | [] => .ok ([], values)
  | op :: ops =>
    match applyTop op values with
    | .error err => .error err
    | .ok vals2 => .ok (ops, vals2)

/-- The close-parenthesis loop of lines 115-116:
`while operators and operators[-1] != '(': apply_operator(...)`.
Each iteration calls `apply_operator` on the same stack it just tested, so
the pop is inlined and the recursion is structural on the stack. -/
noncomputable def popWhileNotOpen : List String → List ℝ →
    Except CalcError (List String × List ℝ)
  | [], values => .ok ([], values)
  | op :: ops, values =>
    if op = "(" then .ok (op :: ops, values)
    else
      match applyTop op values with
      | .error err => .error err
      | .ok vals2 => popWhileNotOpen ops vals2

/-- The precedence loop of lines 127-130, for an incoming operator of
precedence `incoming` (`precedence.get(token, 0)`); again each iteration
pops exactly the tested top, so the recursion is structural. -/
noncomputable def precLoop (incoming : ℕ) : List String → List ℝ →
    Except CalcError (List String × List ℝ)
  | [], values => .ok ([], values)
  | op :: ops, values =>
    if op ≠ "(" ∧ (precOf op).isSome ∧ incoming ≤ (precOf op).getD 0 then
      match applyTop op values with
      | .error err => .error err
      | .ok vals2 => precLoop incoming ops vals2
    else .ok (op :: ops, values)

/-- The final drain of lines 140-141: `while operators: apply_operator(...)`. -/
noncomputable def drain : List String → List ℝ → Except CalcError (List ℝ)
  | [], values => .ok values
  | op :: ops, values =>
    match applyTop op values with
    | .error err => .error err
    | .ok vals2 => drain ops vals2

/-- The token scan of lines 102-137: one branch per token shape, in the
source's order (numeral test, keyword tuple, open paren, close paren,
operator substring test, unknown-token error). -/
noncomputable def scanTokens : List String → List ℝ → List String →
    Except CalcError (List ℝ × List String)
  | [], values, operators => .ok (values, operators)
  | t :: ts, values, operators =>
    if isNumberToken t then
      scanTokens ts (strToReal t :: values) operators
    else if t ∈ keywords then
      scanTokens ts values (t :: operators)
    else if t = "(" then
      scanTokens ts values (t :: operators)
    else if t = ")" then
      match popWhileNotOpen operators values with
      | .error err => .error err
      | .ok (ops2, vals2) =>
        match ops2 with
        | "(" :: ops3 =>
          match ops3 with
          | f :: ops4 =>
            if f ∈ functionNames then
              match applyTop f vals2 with
              | .error err => .error err
              | .ok vals3 => scanTokens ts vals3 ops4
            else scanTokens ts vals2 (f :: ops4)
          | [] => scanTokens ts vals2 []
        | _ => .error .mismatchedParens
    else if isOpSubstring t then
      match precLoop ((precOf t).getD 0) operators values with
      | .error err => .error err
      | .ok (ops2, vals2) => scanTokens ts vals2 (t :: ops2)
    else .error (.unknownToken t)

/-- The evaluator applied to an already-built token list: scan, drain, then
demand exactly one value (lines 98-146). -/
noncomputable def evalTokenList (tokens : List String) : Except CalcError ℝ :=
  match scanTokens tokens [] [] with
  | .error err => .error err
  | .ok (values, operators) =>
    match drain operators values with
    | .error err => .error err
    | .ok vals =>
      match vals with
      | [v] => .ok v
      | _ => .error .invalidExpression

/-- `expression.lower()` on line 93: Python lowercases character by
character (for the engine's ASCII alphabet this is `Char.toLower`). -/
def lowerString (expression : String) : String :=
  String.mk (expression.data.map Char.toLower)

/-- `evaluate` (source lines 91-146): lowercase, tokenize, then run the
two-stack pass. -/
noncomputable def evaluate (expression : String) : Except CalcError ℝ :=
  evalTokenList (tokenize (lowerString expression))

/-! ### Fuelled variants of the evaluator's while-loops

The source's three `while` loops each call `apply_operator`, which pops
exactly one operator-stack entry per iteration.  The fuelled variants below
count loop iterations explicitly; the termination claim is that a fuel equal
to the operator stack's length always suffices. -/

/-- The close-parenthesis loop with an explicit iteration budget. -/
noncomputable def popWhileNotOpenFuel : ℕ → List String → List ℝ →
    Option (Except CalcError (List String × List ℝ))
  | _, [], values => some (.ok ([], values))
  | fuel, op :: ops, values =>
    if op = "(" then some (.ok (op :: ops, values))
    else
      match fuel with
      | 0 => none
      | n + 1 =>
        match applyTop op values with
        | .error err => some (.error err)
        | .ok vals2 => popWhileNotOpenFuel n ops vals2

/-- The precedence loop with an explicit iteration budget. -/
noncomputable def precLoopFuel (incoming : ℕ) : ℕ → List String → List ℝ →
    Option (Except CalcError (List String × List ℝ))
  | _, [], values => some (.ok ([], values))
  | fuel, op :: ops, values =>
    if op ≠ "(" ∧ (precOf op).isSome ∧ incoming ≤ (precOf op).getD 0 then
      match fuel with
      | 0 => none
      | n + 1 =>
        match applyTop op values with
        | .error err => some (.error err)
        | .ok vals2 => precLoopFuel incoming n ops vals2
    else some (.ok (op :: ops, values))

/-- The final drain loop with an explicit iteration budget. -/
noncomputable def drainFuel : ℕ → List String → List ℝ →
    Option (Except CalcError (List ℝ))
  | _, [], values => some (.ok values)
  | 0, _ :: _, _ => none
  | fuel + 1, op :: ops, values =>
    match applyTop op values with
    | .error err => some (.error err)
    | .ok vals2 => drainFuel fuel ops vals2

/-! ### Observation helpers used only to state properties -/

/-- Whether an error value is the defensive unknown-token error. -/
def CalcError.isUnknownTok : CalcError → Bool
  | .unknownToken _ => true
  | _ => false

/-- Whether an engine result is the defensive unknown-token error. -/
def hasUnknownTokenErr {α : Type} : Except CalcError α → Bool
  | .error e => e.isUnknownTok
  | .ok _ => false

/-- The shapes a token emitted by `findTokens` can have: a numeral matched
by the anchored test of line 105, one of the nine keywords, or a single
character of the symbol class. -/
def producedTok (t : String) : Prop :=
  isNumberToken t = true ∨ t ∈ keywords ∨ ∃ c, c ∈ opChars ∧ t = String.mk [c]

/-! ### Helper lemmas -/

theorem strVal0 : strToReal "0" = 0 := by
  norm_num [show strToReal "0" = ((0 : ℕ) : ℝ) from rfl]

theorem strVal1 : strToReal "1" = 1 := by
  norm_num [show strToReal "1" = ((1 : ℕ) : ℝ) from rfl]

theorem strVal2 : strToReal "2" = 2 := by
  norm_num [show strToReal "2" = ((2 : ℕ) : ℝ) from rfl]

theorem strVal3 : strToReal "3" = 3 := by
  norm_num [show strToReal "3" = ((3 : ℕ) : ℝ) from rfl]

theorem strVal4 : strToReal "4" = 4 := by
  norm_num [show strToReal "4" = ((4 : ℕ) : ℝ) from rfl]

theorem strVal16 : strToReal "16" = 16 := by
  norm_num [show strToReal "16" = ((16 : ℕ) : ℝ) from rfl]

theorem drop_takeWhile_length (p : Char → Bool) (l : List Char) :
    l.drop (l.takeWhile p).length = l.dropWhile p := by
  induction l with
  | nil => rfl
  | cons c cs ih =>
    by_cases h : p c
    · simp [List.takeWhile_cons, List.dropWhile_cons, h, ih]
    · simp [List.takeWhile_cons, List.dropWhile_cons, h]

theorem takeWhile_all (p : Char → Bool) (l : List Char) (h : l.all p = true) :
    l.takeWhile p = l := by
  induction l with
  | nil => rfl
  | cons c cs ih =>
    simp only [List.all_cons, Bool.and_eq_true] at h
    simp [List.takeWhile_cons, h.1, ih h.2]

theorem takeWhile_append_stop (p : Char → Bool) (ds : List Char) (x : Char)
    (r : List Char) (hds : ds.all p = true) (hx : p x = false) :
    (ds ++ x :: r).takeWhile p = ds := by
  induction ds with
  | nil => simp [List.takeWhile_cons, hx]
  | cons c cs ih =>
    simp only [List.all_cons, Bool.and_eq_true] at hds
    simp [List.takeWhile_cons, hds.1, ih hds.2]

/-- Scanning the empty character list yields no tokens, whatever the fuel. -/
theorem findTokensGo_nil (fuel : ℕ) : findTokensGo fuel [] = [] := by
  cases fuel <;> rfl

/-- The fuel of `findTokensGo` never truncates the scan: any two budgets of
at least the input's length agree (each step consumes at least one
character, never more fuel than characters). -/
theorem findTokensGo_fuel : ∀ (n : ℕ) (cs : List Char) (m : ℕ),
    cs.length ≤ n → cs.length ≤ m → findTokensGo n cs = findTokensGo m cs := by
  intro n
  induction n with
  | zero =>
    intro cs m hn _
    have : cs = [] := List.eq_nil_of_length_eq_zero (Nat.le_zero.mp hn)
    subst this
    rw [findTokensGo_nil, findTokensGo_nil]
  | succ n ih =>
    intro cs m hn hm
    cases cs with
    | nil => rw [findTokensGo_nil, findTokensGo_nil]
    | cons c rest =>
      cases m with
      | zero => simp at hm
      | succ m' =>
        simp only [List.length_cons, Nat.succ_le_succ_iff] at hn hm
        simp only [findTokensGo]
        cases matchToken (c :: rest) with
        | none => exact ih rest m' hn hm
        | some t =>
          have hlen : (rest.drop (t.length - 1)).length ≤ rest.length := by
            simp only [List.length_drop]
            omega
          exact congrArg (t :: ·) (ih _ m' (le_trans hlen hn) (le_trans hlen hm))

/-- Applying the pending entries above a `(` boundary: the close-parenthesis
loop applies them in order (exactly `drain` does) and stops at the `(`. -/
theorem popWhile_append (f : String) (ops : List String) :
    ∀ (pending : List String) (values : List ℝ), (∀ p ∈ pending, p ≠ "(") →
      popWhileNotOpen (pending ++ "(" :: f :: ops) values =
        Except.map (fun v => ("(" :: f :: ops, v)) (drain pending values) := by
  intro pending
  induction pending with
  | nil => intro values _; simp [popWhileNotOpen, drain, Except.map]
  | cons p ps ih =>
    intro values hps
    have hp1 : p ≠ "(" := hps p (by simp)
    simp only [List.cons_append, popWhileNotOpen, if_neg hp1, drain]
    cases applyTop p values with
    | error e => simp [Except.map]
    | ok v2 => exact ih v2 (fun q hq => hps q (by simp [hq]))

/-- The close-parenthesis step when a function sits right below the matched
`(`: the pending entries are applied until the `(`, the `(` is popped, and
the exposed function is applied immediately to the sub-result. -/
theorem scanClose_fun (f : String) (ts : List String) (values : List ℝ)
    (ops pending : List String)
    (hf : f ∈ functionNames) (hp : ∀ p ∈ pending, p ≠ "(") :
    scanTokens (")" :: ts) values (pending ++ "(" :: f :: ops) =
      Except.bind (drain pending values)
        (fun v2 => Except.bind (applyTop f v2) (fun v3 => scanTokens ts v3 ops)) := by
  simp only [scanTokens]
  simp +decide only []
  rw [popWhile_append f ops pending values hp]
  cases drain pending values with
  | error e => simp [Except.map, Except.bind]
  | ok v2 =>
    simp only [Except.map, Except.bind]
    simp only [hf, if_true]
    cases applyTop f v2 <;> simp


/-- A non-empty all-digit token passes the anchored numeral test. -/
theorem isNumber_digits (ds : List Char)
    (hall : ds.all (fun c => c.isDigit) = true) (hne : ds ≠ []) :
    isNumberToken (String.mk ds) = true := by
  unfold isNumberToken
  simp only [show (String.mk ds).data = ds from rfl]
  rw [takeWhile_all _ _ hall, List.drop_length]
  simpa using hne

/-- A digits-dot-digits token passes the anchored numeral test. -/
theorem isNumber_digits_dot (ds fs : List Char)
    (hds : ds.all (fun c => c.isDigit) = true) (hfs : fs.all (fun c => c.isDigit) = true)
    (hne : fs ≠ []) :
    isNumberToken (String.mk (ds ++ '.' :: fs)) = true := by
  unfold isNumberToken
  simp only [show (String.mk (ds ++ '.' :: fs)).data = ds ++ '.' :: fs from rfl]
  rw [takeWhile_append_stop _ _ _ _ hds (by decide), List.drop_left]
  simpa [hfs] using hne

/-- A successful `matchNumber` yields a token the evaluator's anchored
numeral test accepts. -/
theorem matchNumber_isNumber (cs : List Char) (t : String)
    (h : matchNumber cs = some t) : isNumberToken t = true := by
  have hall : (cs.takeWhile (fun c => c.isDigit)).all (fun c => c.isDigit) = true :=
    List.all_eq_true.mpr (fun x hx => List.mem_takeWhile_imp hx)
  simp only [matchNumber] at h
  split at h
  · rename_i r2 heq
    have hfall : (r2.takeWhile (fun c => c.isDigit)).all (fun c => c.isDigit) = true :=
      List.all_eq_true.mpr (fun x hx => List.mem_takeWhile_imp hx)
    split at h
    · rename_i hfs
      simp only [Option.some.injEq] at h
      subst h
      exact isNumber_digits_dot _ _ hall hfall hfs
    · split at h
      · rename_i hds
        simp only [Option.some.injEq] at h
        subst h
        exact isNumber_digits _ hall hds
      · exact absurd h (by simp)
  · split at h
    · rename_i hds
      simp only [Option.some.injEq] at h
      subst h
      exact isNumber_digits _ hall hds
    · exact absurd h (by simp)

/-- Every token `matchToken` emits has one of the three produced shapes. -/
theorem matchToken_produced (cs : List Char) (t : String)
    (h : matchToken cs = some t) : producedTok t := by
  unfold matchToken at h
  cases hnum : matchNumber cs with
  | some tk =>
    rw [hnum] at h
    simp only [Option.some.injEq] at h
    subst h
    exact Or.inl (matchNumber_isNumber cs tk hnum)
  | none =>
    rw [hnum] at h
    cases cs with
    | nil => exact absurd h (by simp)
    | cons c rest =>
      simp only [] at h
      by_cases hc : c ∈ opChars
      · rw [if_pos hc] at h
        simp only [Option.some.injEq] at h
        subst h
        exact Or.inr (Or.inr ⟨c, hc, rfl⟩)
      · rw [if_neg hc] at h
        exact Or.inr (Or.inl (List.mem_of_find?_eq_some h))

/-- Every token the findall scan emits has one of the three produced
shapes, whatever the fuel. -/
theorem findTokensGo_produced : ∀ (fuel : ℕ) (cs : List Char) (t : String),
    t ∈ findTokensGo fuel cs → producedTok t := by
  intro fuel
  induction fuel with
  | zero => intro cs t ht; exact absurd ht (by simp [findTokensGo])
  | succ n ih =>
    intro cs t ht
    cases cs with
    | nil => exact absurd ht (by simp [findTokensGo])
    | cons c rest =>
      simp only [findTokensGo] at ht
      cases hm : matchToken (c :: rest) with
      | some tk =>
        rw [hm] at ht
        rcases List.mem_cons.mp ht with h1 | h2
        · subst h1; exact matchToken_produced _ _ hm
        · exact ih _ _ h2
      | none =>
        rw [hm] at ht
        exact ih _ _ ht

/-- Every token `tokenize` produces has one of the three produced shapes. -/
theorem tokenize_produced (s : String) (t : String) (h : t ∈ tokenize s) :
    producedTok t :=
  findTokensGo_produced _ _ _ h

/-- Produced tokens are exactly the shapes the evaluator's first five
branches handle. -/
theorem producedTok_classified (t : String) (h : producedTok t) :
    isNumberToken t = true ∨ t ∈ keywords ∨ t = "(" ∨ t = ")" ∨
      isOpSubstring t = true := by
  rcases h with h | h | ⟨c, hc, rfl⟩
  · exact Or.inl h
  · exact Or.inr (Or.inl h)
  · fin_cases hc <;> simp +decide

/-- A token accepted by the anchored numeral test consists of digits and
dots only. -/
theorem isNumberToken_chars (t : String) (h : isNumberToken t = true) :
    ∀ c ∈ t.data, c.isDigit = true ∨ c = '.' := by
  have hsplit : t.data.takeWhile (fun c => c.isDigit) ++
      t.data.drop ((t.data.takeWhile (fun c => c.isDigit)).length) = t.data := by
    rw [drop_takeWhile_length]
    exact List.takeWhile_append_dropWhile _ _
  simp only [isNumberToken] at h
  split at h
  · rename_i heq
    intro c hc
    rw [← hsplit, heq, List.append_nil] at hc
    exact Or.inl (List.mem_takeWhile_imp hc)
  · rename_i r2 heq
    simp only [Bool.and_eq_true, List.all_eq_true] at h
    intro c hc
    rw [← hsplit, heq] at hc
    rcases List.mem_append.mp hc with h1 | h2
    · exact Or.inl (List.mem_takeWhile_imp h1)
    · rcases List.mem_cons.mp h2 with h3 | h4
      · exact Or.inr h3
      · exact Or.inl (h.2 c h4)
  · exact absurd h (by simp)

set_option maxHeartbeats 1600000 in
/-- `apply_operator` never produces the unknown-token error: its failure
modes are operand shortages and domain errors only. -/
theorem applyTop_no_unknown (op : String) (values : List ℝ) :
    hasUnknownTokenErr (applyTop op values) = false := by
  unfold applyTop
  repeat' split
  all_goals rfl

theorem popWhile_no_unknown : ∀ (ops : List String) (values : List ℝ),
    hasUnknownTokenErr (popWhileNotOpen ops values) = false := by
  intro ops
  induction ops with
  | nil => intro values; rfl
  | cons op ops ih =>
    intro values
    simp only [popWhileNotOpen]
    split
    · rfl
    · cases happ : applyTop op values with
      | error e =>
        have h2 := applyTop_no_unknown op values
        rw [happ] at h2
        simpa using h2
      | ok v2 => simpa using ih v2

/-- The precedence loop never produces the unknown-token error. -/
theorem precLoop_no_unknown (p : ℕ) : ∀ (ops : List String) (values : List ℝ),
    hasUnknownTokenErr (precLoop p ops values) = false := by
  intro ops
  induction ops with
  | nil => intro values; rfl
  | cons op ops ih =>
    intro values
    simp only [precLoop]
    split
    · cases happ : applyTop op values with
      | error e =>
        have h2 := applyTop_no_unknown op values
        rw [happ] at h2
        simpa using h2
      | ok v2 => simpa using ih v2
    · rfl

/-- The final drain never produces the unknown-token error. -/
theorem drain_no_unknown : ∀ (ops : List String) (values : List ℝ),
    hasUnknownTokenErr (drain ops values) = false := by
  intro ops
  induction ops with
  | nil => intro values; rfl
  | cons op ops ih =>
    intro values
    simp only [drain]
    cases happ : applyTop op values with
    | error e =>
      have h2 := applyTop_no_unknown op values
      rw [happ] at h2
      simpa using h2
    | ok v2 => simpa using ih v2

/-- When every incoming token has a produced shape, the scan never reaches
the unknown-token branch. -/
theorem scanTokens_no_unknown : ∀ (ts : List String),
    (∀ t ∈ ts, producedTok t) → ∀ (values : List ℝ) (operators : List String),
    hasUnknownTokenErr (scanTokens ts values operators) = false := by
  intro ts
  induction ts with
  | nil => intro _ values operators; rfl
  | cons t ts ih =>
    intro hall values operators
    have hts : ∀ u ∈ ts, producedTok u := fun u hu => hall u (List.mem_cons_of_mem t hu)
    have ht : producedTok t := hall t (List.mem_cons_self t ts)
    simp only [scanTokens]
    by_cases h1 : isNumberToken t = true
    · rw [if_pos h1]
      exact ih hts _ _
    · rw [if_neg h1]
      by_cases h2 : t ∈ keywords
      · rw [if_pos h2]
        exact ih hts _ _
      · rw [if_neg h2]
        by_cases h3 : t = "("
        · rw [if_pos h3]
          exact ih hts _ _
        · rw [if_neg h3]
          by_cases h4 : t = ")"
          · rw [if_pos h4]
            cases hpop : popWhileNotOpen operators values with
            | error e =>
              have hh := popWhile_no_unknown operators values
              rw [hpop] at hh
              simpa using hh
            | ok pair =>
              rcases pair with ⟨ops2, vals2⟩
              dsimp only
              split
              · split
                · split
                  · rename_i f ops4 hf
                    cases happ : applyTop f vals2 with
                    | error e =>
                      have hh := applyTop_no_unknown f vals2
                      rw [happ] at hh
                      simpa using hh
                    | ok vals3 => simpa using ih hts _ _
                  · exact ih hts _ _
                · exact ih hts _ _
              · rfl
          · rw [if_neg h4]
            by_cases h5 : isOpSubstring t = true
            · rw [if_pos h5]
              cases hprec : precLoop ((precOf t).getD 0) operators values with
              | error e =>
                have hh := precLoop_no_unknown ((precOf t).getD 0) operators values
                rw [hprec] at hh
                simpa using hh
              | ok pair =>
                rcases pair with ⟨ops2, vals2⟩
                exact ih hts _ _
            · rw [if_neg h5]
              rcases producedTok_classified t ht with hh | hh | hh | hh | hh
              · exact absurd hh h1
              · exact absurd hh h2
              · exact absurd hh h3
              · exact absurd hh h4
              · exact absurd hh h5

/-- Running the whole evaluator pipeline on produced tokens never yields
the unknown-token error. -/
theorem evalTokenList_no_unknown (tokens : List String)
    (h : ∀ t ∈ tokens, producedTok t) :
    hasUnknownTokenErr (evalTokenList tokens) = false := by
  unfold evalTokenList
  cases hscan : scanTokens tokens [] [] with
  | error e =>
    have hh := scanTokens_no_unknown tokens h [] []
    rw [hscan] at hh
    simpa using hh
  | ok pair =>
    rcases pair with ⟨values, operators⟩
    dsimp only
    cases hd : drain operators values with
    | error e =>
      have hh := drain_no_unknown operators values
      rw [hd] at hh
      simpa using hh
    | ok vals =>
      rcases vals with _ | ⟨v, rest⟩
      · rfl
      · rcases rest with _ | _ <;> rfl

/-- The only produced token whose text contains a minus sign is the
standalone operator token. -/
theorem producedTok_minus (t : String) (h : producedTok t) (hm : '-' ∈ t.data) :
    t = "-" := by
  rcases h with h | h | ⟨c, hc, rfl⟩
  · rcases isNumberToken_chars t h '-' hm with hd | hd
    · exact absurd hd (by decide)
    · exact absurd hd (by decide)
  · fin_cases h <;> exact absurd hm (by decide)
  · have hc2 : '-' = c := by simpa using hm
    subst hc2
    rfl

/-! ### The claims -/

/-- Claim C1 counterexample: on the spec's own example, `tokenize "1 & 2"`
does not fail with a lexical error: it returns the token sequence
`["1", "2"]` with the `&` dropped, and the full evaluation of the same
input fails only with the invalid-expression error, not an
unrecognized-substring one. -/
theorem tokenize_ampersand_no_error :
    tokenize "1 & 2" = ["1", "2"] ∧
    evaluate "1 & 2" = Except.error CalcError.invalidExpression := ⟨rfl, rfl⟩

/-- Claim C1 (amended): `tokenize` cannot fail.  `re.findall` silently
skips any position where no alternative of the pattern matches, so a
maximal unclassifiable substring is dropped one character at a time rather
than reported; in particular `tokenize "1 & 2" = ["1", "2"]`, and
evaluating `"1 & 2"` then fails with the invalid-expression error. -/
theorem tokenize_skips_unclassified :
    (∀ (c : Char) (cs : List Char), matchToken (c :: cs) = none →
      findTokens (c :: cs) = findTokens cs) ∧
    tokenize "1 & 2" = ["1", "2"] ∧
    evaluate "1 & 2" = Except.error CalcError.invalidExpression := by
  refine ⟨?_, rfl, rfl⟩
  intro c cs h
  simp [findTokens, findTokensGo, h]

/-- Claim C2 counterexample: `evaluate "(1 + 2"` does not fail with a
mismatched-parentheses error — it returns the value 3. -/
theorem evaluate_unclosed_paren_value : evaluate "(1 + 2" = Except.ok 3 := by
  have h : evaluate "(1 + 2" = .ok (strToReal "1" + strToReal "2") := rfl
  rw [h, strVal1, strVal2]
  norm_num

/-- Claim C2 (amended): a CloseParen with no matching OpenParen fails with
the mismatched-parentheses error, but an OpenParen never matched before
end-of-input is silently discarded: the final drain treats `(` as a no-op
(`apply_operator` returns without touching the values), so
`evaluate "(1 + 2"` returns 3 instead of failing, while
`evaluate "1 + 2)"` does fail with mismatched parentheses. -/
theorem unmatched_open_paren_ignored :
    (∀ values : List ℝ, applyTop "(" values = Except.ok values) ∧
    (∀ (ops : List String) (values : List ℝ),
      drain ("(" :: ops) values = drain ops values) ∧
    (∀ (ts : List String) (values : List ℝ),
      scanTokens (")" :: ts) values [] = Except.error CalcError.mismatchedParens) ∧
    evaluate "(1 + 2" = Except.ok 3 ∧
    evaluate "1 + 2)" = Except.error CalcError.mismatchedParens := by
  refine ⟨fun values => rfl, fun ops values => rfl, fun ts values => rfl, ?_, rfl⟩
  have h : evaluate "(1 + 2" = .ok (strToReal "1" + strToReal "2") := rfl
  rw [h, strVal1, strVal2]
  norm_num

/-- Claim C3 (code bug): the source guards `/` against a zero right operand
with a typed ValueError but applies `left % right` unguarded, so
`evaluate "5 % 0"` dies with Python's built-in ZeroDivisionError (modelled
by the dedicated `pythonZeroDivision` constructor) instead of a typed
modulo-by-zero evaluation error. -/
theorem modulo_by_zero_unguarded :
    evaluate "5 % 0" = Except.error CalcError.pythonZeroDivision := by
  have hs : scanTokens (tokenize (lowerString "5 % 0")) [] [] =
      .ok ([strToReal "0", strToReal "5"], ["%"]) := rfl
  have hd : drain ["%"] [strToReal "0", strToReal "5"] =
      .error .pythonZeroDivision := by
    rw [strVal0]
    simp +decide [drain, applyTop, functionNames]
  simp only [evaluate, evalTokenList, hs, hd]

/-- Claim C4: `^` is applied left-associatively.  For any three numeral
tokens, the evaluator reduces `a ^ b` first and then applies `^ c` to that
result: the token list `[a, ^, b, ^, c]` evaluates to
`(value a ^ value b) ^ value c`.  (The witness instantiates this at
`evaluate "2 ^ 3 ^ 2" = 64`, not 512.) -/
theorem caret_left_associative (a b c : String)
    (ha : isNumberToken a = true) (hb : isNumberToken b = true)
    (hc : isNumberToken c = true) :
    evalTokenList [a, "^", b, "^", c] =
      Except.ok ((strToReal a ^ strToReal b) ^ strToReal c) := by
  simp +decide [evalTokenList, scanTokens, ha, hb, hc, precLoop, precOf, applyTop,
    drain, keywords, functionNames, isOpSubstring]

/-- Claim C4 witness: the left-associative reduction at the spec's example,
`evaluate "2 ^ 3 ^ 2" = (2 ^ 3) ^ 2 = 64`. -/
theorem caret_left_associative_witness : evaluate "2 ^ 3 ^ 2" = Except.ok 64 := by
  have h := caret_left_associative "2" "3" "2" rfl rfl rfl
  have he : evaluate "2 ^ 3 ^ 2" = evalTokenList ["2", "^", "3", "^", "2"] := rfl
  rw [he, h, strVal2, strVal3]
  have h3 : (2 : ℝ) ^ (3 : ℝ) = 8 := by
    rw [show (3 : ℝ) = ((3 : ℕ) : ℝ) by norm_num, Real.rpow_natCast]
    norm_num
  rw [h3, show (2 : ℝ) = ((2 : ℕ) : ℝ) by norm_num, Real.rpow_natCast]
  norm_num

/-- Claim C5: the precedence table maps `+`,`-` to 1, `*`,`/`,`%` to 2 and
`^` to 3, and parentheses override precedence: `evaluate "2 + 3 * 4" = 14`
and `evaluate "(2 + 3) * 4" = 20`. -/
theorem precedence_table_and_parens :
    precOf "+" = some 1 ∧ precOf "-" = some 1 ∧ precOf "*" = some 2 ∧
    precOf "/" = some 2 ∧ precOf "%" = some 2 ∧ precOf "^" = some 3 ∧
    evaluate "2 + 3 * 4" = Except.ok 14 ∧
    evaluate "(2 + 3) * 4" = Except.ok 20 := by
  refine ⟨rfl, rfl, rfl, rfl, rfl, rfl, ?_, ?_⟩
  · have h : evaluate "2 + 3 * 4" =
        .ok (strToReal "2" + strToReal "3" * strToReal "4") := rfl
    rw [h, strVal2, strVal3, strVal4]
    norm_num
  · have h : evaluate "(2 + 3) * 4" =
        .ok ((strToReal "2" + strToReal "3") * strToReal "4") := rfl
    rw [h, strVal2, strVal3, strVal4]
    norm_num

/-- Claim C6: processing a CloseParen applies the pending operator-stack
entries down to the matching OpenParen (exactly a drain of those entries),
pops that OpenParen, and, when the entry then exposed is a function,
applies it immediately to the parenthesized sub-result before scanning
continues.  (The witness instantiates this at
`evaluate "sqrt(16) + 1" = 5`.) -/
theorem close_paren_applies_function (f : String) (ts : List String)
    (values : List ℝ) (ops pending : List String)
    (hf : f ∈ functionNames) (hp : ∀ p ∈ pending, p ≠ "(") :
    scanTokens (")" :: ts) values (pending ++ "(" :: f :: ops) =
      Except.bind (drain pending values)
        (fun v2 => Except.bind (applyTop f v2) (fun v3 => scanTokens ts v3 ops)) :=
  scanClose_fun f ts values ops pending hf hp

/-- Claim C6 witness: `evaluate "sqrt(16) + 1" = 5` — `sqrt` is applied to
the fully-reduced parenthesized argument before `+ 1`. -/
theorem close_paren_applies_function_witness :
    evaluate "sqrt(16) + 1" = Except.ok 5 := by
  have h := close_paren_applies_function "sqrt" ["+", "1"] [strToReal "16"] [] []
    (by decide) (by simp)
  simp only [List.nil_append, drain, Except.bind] at h
  have hsqrt : applyTop "sqrt" [strToReal "16"] = .ok [4] := by
    rw [strVal16]
    have h16 : ¬ ((16 : ℝ) < 0) := by norm_num
    simp +decide [applyTop, functionNames, h16]
    rw [show (16 : ℝ) = 4 ^ 2 by norm_num, Real.sqrt_sq (by norm_num : (0 : ℝ) ≤ 4)]
  rw [hsqrt] at h
  have hscan : scanTokens (tokenize (lowerString "sqrt(16) + 1")) [] [] =
      .ok ([strToReal "1", (4 : ℝ)], ["+"]) := by
    have h0 : scanTokens (tokenize (lowerString "sqrt(16) + 1")) [] [] =
        scanTokens [")", "+", "1"] [strToReal "16"] ["(", "sqrt"] := rfl
    rw [h0, h]
    rfl
  have hdrain : drain ["+"] [strToReal "1", (4 : ℝ)] = .ok [5] := by
    rw [strVal1]
    simp +decide [drain, applyTop, functionNames]
    norm_num
  simp only [evaluate, evalTokenList, hscan, hdrain]

/-- Claim C7: the domain and zero guards of `apply_operator`: `sqrt` of a
negative value fails with the negative-sqrt error, `log` and `ln` of a
non-positive value fail with the corresponding non-positive errors, `/`
with right operand 0 fails with the division-by-zero error, and `sin`,
`cos`, `tan`, `abs` succeed on every real argument. -/
theorem domain_and_zero_guards : ∀ (v : ℝ) (vs : List ℝ),
    (v < 0 → applyTop "sqrt" (v :: vs) = .error .negativeSqrt) ∧
    (v ≤ 0 → applyTop "log" (v :: vs) = .error .nonPositiveLog) ∧
    (v ≤ 0 → applyTop "ln" (v :: vs) = .error .nonPositiveLn) ∧
    (∀ l : ℝ, applyTop "/" ((0 : ℝ) :: l :: vs) = .error .divisionByZero) ∧
    applyTop "sin" (v :: vs) = .ok (Real.sin v :: vs) ∧
    applyTop "cos" (v :: vs) = .ok (Real.cos v :: vs) ∧
    applyTop "tan" (v :: vs) = .ok (Real.tan v :: vs) ∧
    applyTop "abs" (v :: vs) = .ok (|v| :: vs) := by
  intro v vs
  refine ⟨fun h => ?_, fun h => ?_, fun h => ?_, fun l => ?_, ?_, ?_, ?_, ?_⟩
  · simp +decide [applyTop, functionNames, h]
  · simp +decide [applyTop, functionNames, h]
  · simp +decide [applyTop, functionNames, h]
  · simp +decide [applyTop, functionNames]
  · simp +decide [applyTop, functionNames]
  · simp +decide [applyTop, functionNames]
  · simp +decide [applyTop, functionNames]
  · simp +decide [applyTop, functionNames]

/-- Claim C7 witness: the guards at work through the whole pipeline on the
spec's examples: `evaluate "5 / 0"` fails with division-by-zero and
`evaluate "log(0)"` fails with the non-positive-log error. -/
theorem domain_and_zero_guards_witness :
    evaluate "5 / 0" = Except.error CalcError.divisionByZero ∧
    evaluate "log(0)" = Except.error CalcError.nonPositiveLog := by
  constructor
  · have hs : scanTokens (tokenize (lowerString "5 / 0")) [] [] =
        .ok ([strToReal "0", strToReal "5"], ["/"]) := rfl
    have happ : applyTop "/" ((0 : ℝ) :: strToReal "5" :: []) =
        .error .divisionByZero :=
      (domain_and_zero_guards 0 []).2.2.2.1 (strToReal "5")
    have hd : drain ["/"] [strToReal "0", strToReal "5"] =
        .error .divisionByZero := by
      rw [strVal0]
      simp only [drain]
      rw [happ]
    simp only [evaluate, evalTokenList, hs, hd]
  · have h := scanClose_fun "log" [] [strToReal "0"] [] [] (by decide) (by simp)
    simp only [List.nil_append, drain, Except.bind] at h
    have happ : applyTop "log" [strToReal "0"] = .error .nonPositiveLog := by
      rw [strVal0]
      exact (domain_and_zero_guards 0 []).2.1 le_rfl
    rw [happ] at h
    have hs : scanTokens (tokenize (lowerString "log(0)")) [] [] =
        .error .nonPositiveLog := by
      have h0 : scanTokens (tokenize (lowerString "log(0)")) [] [] =
          scanTokens [")"] [strToReal "0"] ["(", "log"] := rfl
      rw [h0, h]
    simp only [evaluate, evalTokenList, hs]

/-- Claim C8: every token `tokenize` emits is handled by one of the
evaluator's branches, so the defensive unknown-token error is unreachable:
for every input string, `evaluate` never returns it. -/
theorem no_unknown_token_error (s : String) :
    hasUnknownTokenErr (evaluate s) = false := by
  unfold evaluate
  exact evalTokenList_no_unknown _ (fun t ht => tokenize_produced _ t ht)

/-- Claim C9: the evaluator terminates.  A successful `apply_operator` pops
exactly the tested top entry, and each of the three while-loops (the
close-parenthesis loop, the precedence loop and the final drain) finishes
within as many iterations as the operator stack has entries: the fuelled
variants with that budget never run out and agree with the loops. -/
theorem evaluator_loops_terminate :
    (∀ (op : String) (ops : List String) (values : List ℝ)
        (r : List String × List ℝ),
      applyOperator (op :: ops) values = Except.ok r → r.1 = ops) ∧
    (∀ (ops : List String) (values : List ℝ),
      popWhileNotOpenFuel ops.length ops values = some (popWhileNotOpen ops values)) ∧
    (∀ (p : ℕ) (ops : List String) (values : List ℝ),
      precLoopFuel p ops.length ops values = some (precLoop p ops values)) ∧
    (∀ (ops : List String) (values : List ℝ),
      drainFuel ops.length ops values = some (drain ops values)) := by
  refine ⟨?_, ?_, ?_, ?_⟩
  · intro op ops values r h
    simp only [applyOperator] at h
    cases happ : applyTop op values with
    | error e =>
      rw [happ] at h
      exact absurd h (by simp)
    | ok v2 =>
      rw [happ] at h
      simp only [Except.ok.injEq] at h
      rw [← h]
  · intro ops
    induction ops with
    | nil => intro values; rfl
    | cons op ops ih =>
      intro values
      simp only [List.length_cons, popWhileNotOpenFuel, popWhileNotOpen]
      by_cases h : op = "("
      · simp [h]
      · simp only [if_neg h]
        cases applyTop op values with
        | error e => rfl
        | ok v2 => exact ih v2
  · intro p ops
    induction ops with
    | nil => intro values; rfl
    | cons op ops ih =>
      intro values
      simp only [List.length_cons, precLoopFuel, precLoop]
      split
      · cases applyTop op values with
        | error e => rfl
        | ok v2 => exact ih v2
      · rfl
  · intro ops
    induction ops with
    | nil => intro values; rfl
    | cons op ops ih =>
      intro values
      simp only [List.length_cons, drainFuel, drain]
      cases applyTop op values with
      | error e => rfl
      | ok v2 => exact ih v2

/-- Claim C9 witness: the pops-exactly-one fact of the termination theorem
at a concrete successful application. -/
theorem evaluator_loops_terminate_witness :
    applyOperator ["("] ([] : List ℝ) = Except.ok ([], []) ∧ ([] : List String) = [] :=
  ⟨rfl, evaluator_loops_terminate.1 "(" [] [] ([], []) rfl⟩

/-- Claim C10 counterexample: an input whose first token is a binary
operator need not fail — `"+(1)(2)"` tokenizes to the operator `+`
followed by two parenthesized operands and evaluates to 3. -/
theorem leading_operator_can_succeed :
    tokenize "+(1)(2)" = ["+", "(", "1", ")", "(", "2", ")"] ∧
    evaluate "+(1)(2)" = Except.ok 3 := by
  constructor
  · rfl
  · have h : evaluate "+(1)(2)" = .ok (strToReal "1" + strToReal "2") := rfl
    rw [h, strVal1, strVal2]
    norm_num

/-- Claim C10 (amended): negative literals and unary minus are
unsupported.  The tokenizer never attaches a leading sign to a numeral
(the only produced token containing `-` is the operator token `-` itself),
and an input tokenizing to a single binary operator followed by a single
numeral — such as `"-5"` — fails with an insufficient-operands error
rather than yielding a negated value.  (The claim's universal form over
every input starting with a binary operator is refuted by the
counterexample `"+(1)(2)"`.) -/
theorem unary_minus_unsupported :
    (∀ (s t : String), t ∈ tokenize s → '-' ∈ t.data → t = "-") ∧
    (∀ (op num : String), op ∈ ["+", "-", "*", "/", "^", "%"] →
      isNumberToken num = true →
      evalTokenList [op, num] = Except.error (CalcError.notEnoughOperandsOp op)) ∧
    evaluate "-5" = Except.error (CalcError.notEnoughOperandsOp "-") := by
  refine ⟨?_, ?_, rfl⟩
  · intro s t ht hm
    exact producedTok_minus t (tokenize_produced s t ht) hm
  · intro op num hop hnum
    fin_cases hop <;>
      simp +decide [evalTokenList, scanTokens, hnum, precLoop, precOf, applyTop,
        drain, keywords, functionNames, isOpSubstring]
